import Mathlib

/-!
# Verification of the TwilioWeatherStation observation/alarm/shadow engine

Shallow embedding of src/TwilioLambdaHelper.cpp / .hpp.

Modelling conventions:
- C float values are modelled as rationals together with a NaN flag
  (structure FloatR).  The only float predicates the control flow of the
  source depends on are isnan and C truthiness (value different from 0);
  both are modelled exactly, with NaN truthy as in C.
- int32_t timestamps and epochs are modelled as Int.  Signed overflow is
  undefined behaviour in C++ and lies outside the modelled domain; the
  arithmetic of the model is exact.
- pow(E_CONSTANT, x) from libm is modelled by a computable cubic Taylor
  approximation expQ; no claim in this development depends on the numeric
  accuracy of the exponential, only on which arguments reach it.
- Serial diagnostics (print_to_serial) are not modelled.  Externally
  visible effects are modelled as a list of Event values: shadow publishes
  (with the structured document content that the source serialises to
  JSON) and outbound Twilio message sends.
-/

/-- A C float: a rational value plus a NaN flag.  When isNaN is true the
value component is irrelevant. -/
structure FloatR where
  isNaN : Bool
  val : ℚ
deriving DecidableEq, Repr

namespace FloatR

/-- C truthiness of a float: true iff the float is not equal to 0.
NaN compares unequal to 0, hence NaN is truthy. -/
def truthy (f : FloatR) : Bool := f.isNaN || f.val ≠ 0

/-- The isnan predicate of the source. -/
def isnan (f : FloatR) : Bool := f.isNaN

/-- Float addition; NaN propagates. -/
def add (a b : FloatR) : FloatR := ⟨a.isNaN || b.isNaN, a.val + b.val⟩

/-- Division of a float by a rational constant; NaN propagates. -/
def divC (a : FloatR) (q : ℚ) : FloatR := ⟨a.isNaN, a.val / q⟩

end FloatR

/-- The round function of libm: round half away from zero. -/
def croundQ (q : ℚ) : ℤ :=
  if 0 ≤ q then ⌊q + 1/2⌋ else -⌊-q + 1/2⌋

/-- Computable stand-in for pow(E_CONSTANT, x): cubic Taylor approximation
of the exponential.  No claim depends on its numeric accuracy. -/
def expQ (x : ℚ) : ℚ := 1 + x + x ^ 2 / 2 + x ^ 3 / 6

/-- RECHECK_WEATHER_INTERVAL from the header: every 3 minutes, in
milliseconds. -/
def RECHECK_WEATHER_INTERVAL : ℤ := 3 * 60 * 1000

/-- HPA_TO_IN_MERCURY from the header. -/
def HPA_TO_IN_MERCURY : ℚ := 295299830714 / 10000000000000

/-- GRAVITATIONAL_ACCELERATION from the header. -/
def GRAVITATIONAL_ACCELERATION : ℚ := 9807 / 1000

/-- ATM_JOULES_PER_KILOGRAM_KELVIN from the header. -/
def ATM_JOULES_PER_KILOGRAM_KELVIN : ℚ := 2871 / 10

/-- The WObservation struct of the header: one sampled environmental
reading with calendar fields and epoch. -/
structure WObservation where
  temperature : FloatR
  humidity : FloatR
  pressure : FloatR
  day : ℕ
  hour : ℕ
  minute : ℕ
  second : ℕ
  epoch : ℤ
deriving DecidableEq, Repr

/-- The Alarm struct nested in TwilioWeatherStation: one scheduled epoch
timestamp plus the rang flag. -/
structure Alarm where
  timestamp : ℤ
  rang : Bool
deriving DecidableEq, Repr

/-- The mutable state of a TwilioWeatherStation instance: the last
observation, the pending alarm and the station configuration.  Sensor,
time and transport handles are external capabilities and appear as
explicit inputs of the operations instead. -/
structure Station where
  last_observation : WObservation
  next_alarm : Alarm
  location_altitude : ℤ
  time_zone_offset : ℤ
  master_number : String
  twilio_device_number : String
  unit_type : String
  shadow_topic : String
  twilio_topic : String
deriving DecidableEq, Repr

/-- The structured content of a shadow document: the six fields that
report_shadow_state and update_shadow_state serialise to JSON. -/
structure ShadowDoc where
  alarm : ℤ
  units : String
  alt : ℤ
  tz : ℤ
  t_num : String
  m_num : String
deriving DecidableEq, Repr

/-- Externally visible effects of the engine: pub/sub publishes of shadow
documents and outbound Twilio message sends. -/
inductive Event where
  | publishReported (topic : String) (doc : ShadowDoc)
  | publishDesired (topic : String) (doc : ShadowDoc)
  | sendMessage (topic dest src body media : String)
deriving DecidableEq, Repr

/-- One raw sensor acquisition: the BMP event pressure, the two DHT
readings and the BMP temperature, exactly the four values
make_observation pulls from the sensor capabilities. -/
structure SensorReadings where
  event_pressure : FloatR
  dht_humidity : FloatR
  dht_temperature : FloatR
  bmp_temperature : FloatR
deriving DecidableEq, Repr

/-- One answer of the time-source capability: the calendar fields and the
epoch that make_observation copies into the observation. -/
structure TimeReading where
  day : ℕ
  hour : ℕ
  minute : ℕ
  second : ℕ
  epoch : ℤ
deriving DecidableEq, Repr

/-- Left-pad a string with spaces to a minimum width, as dtostrf does for
its width argument. -/
def padLeftTo (n : ℕ) (s : String) : String :=
  if s.length < n then String.mk (List.replicate (n - s.length) ' ') ++ s else s

/-- Model of dtostrf(x, 8, 2, buf): render with two decimal digits,
left-padded with spaces to a minimum width of eight characters. -/
def dtostrf82 (f : FloatR) : String :=
  if f.isNaN then padLeftTo 8 "nan"
  else
    let n : ℤ := croundQ (f.val * 100)
    let sign := if n < 0 then "-" else ""
    let ip : ℕ := n.natAbs / 100
    let fp : ℕ := n.natAbs % 100
    padLeftTo 8 (sign ++ toString ip ++ "." ++ (if fp < 10 then "0" else "") ++ toString fp)

/-- int_to_day of the source: fixed 7-entry day-name table indexed from
0 = Sunday.  Indexing past the table is undefined behaviour in the C++
source; the model returns the empty string there. -/
def int_to_day (int_day : ℕ) : String :=
  ["Sun.", "Mon.", "Tue.", "Wed.", "Thu.", "Fri.", "Sat."].getD int_day ""

/-- The celsius-to-fahrenheit conversion of the source, rounded at the
1/1000 scale. -/
def _celsius_to_fahrenheit (celsius : FloatR) : FloatR :=
  ⟨celsius.isNaN, (croundQ (celsius.val * 9 / 5 * 1000 + 32000) : ℚ) / 1000⟩

/-- The hectopascal-to-inches-of-mercury conversion of the source. -/
def _hpa_to_in_mercury (hpa : FloatR) : FloatR :=
  ⟨hpa.isNaN, (croundQ (HPA_TO_IN_MERCURY * hpa.val * 1000) : ℚ) / 1000⟩

/-- The inches-to-millimetres conversion of the source. -/
def _in_to_mm (inches : FloatR) : FloatR :=
  ⟨inches.isNaN, (croundQ (254 / 10 * inches.val * 1000) : ℚ) / 1000⟩

set_option linter.unusedVariables false in
/-- Station-pressure-to-sea-level conversion of the source.  The source
body reads the member location_altitude rather than its altitude
parameter (they coincide at every call site); the model preserves this,
keeping the parameter unused.  The kelvin offset is 273.1 as in the
source.  A celsius value of exactly -273.1 (scale height zero) lies
outside the modelled domain. -/
def _hpa_to_sea_level (st : Station) (celsius hpa : FloatR) (altitude : ℤ) : FloatR :=
  let kelvin : ℚ := 2731 / 10 + celsius.val
  let scale_height : ℚ :=
    ATM_JOULES_PER_KILOGRAM_KELVIN * kelvin / GRAVITATIONAL_ACCELERATION
  let adjusted_pressure : ℚ :=
    hpa.val * expQ ((st.location_altitude : ℚ) / scale_height)
  ⟨celsius.isNaN || hpa.isNaN, (croundQ (adjusted_pressure * 1000) : ℚ) / 1000⟩

/-- The sea-level pressure computed inside get_weather_report: the source
passes last_observation.humidity as the celsius argument. -/
def report_sea_level_pressure (st : Station) : FloatR :=
  _hpa_to_sea_level st st.last_observation.humidity st.last_observation.pressure
    st.location_altitude

/-- Model of snprintf(buf, 160, ...) followed by String(buf): at most 159
characters are written before the terminating NUL. -/
def truncate159 (s : String) : String := String.mk (s.data.take 159)

/-- get_weather_report of the source.  The invalid conversion sequence
of a percent sign followed by a space in the format string is modelled
as printed literally. -/
def get_weather_report (intro : String) (st : Station) : String :=
  let obs := st.last_observation
  let slvl_press := report_sea_level_pressure st
  let humidity := dtostrf82 obs.humidity
  let pressure := dtostrf82 slvl_press
  let temperature :=
    if st.unit_type = "imperial" then dtostrf82 (_celsius_to_fahrenheit obs.temperature)
    else dtostrf82 obs.temperature
  let pressure_conv :=
    if st.unit_type = "imperial" then dtostrf82 (_hpa_to_in_mercury slvl_press)
    else dtostrf82 (_in_to_mm (_hpa_to_in_mercury slvl_press))
  let f_or_c := if st.unit_type = "imperial" then "F" else "C"
  let in_or_mm := if st.unit_type = "imperial" then "in" else "mm"
  truncate159 (intro ++ "Conditions as of " ++ int_to_day obs.day ++ " " ++
    toString obs.hour ++ ":" ++ toString obs.minute ++ ":" ++ toString obs.second ++
    "\n" ++ temperature ++ " *" ++ f_or_c ++ "\n" ++ humidity ++ " % Humidity\n" ++
    pressure ++ " hPc (" ++ pressure_conv ++ " " ++ in_or_mm ++ " Hg)\n")

/-- update_shadow_state of the source: serialise the six desired fields
into a desired-state document and publish it.  The document content is
modelled structurally. -/
def update_shadow_state (topic : String) (new_alarm : ℤ) (new_units : String)
    (new_alt new_tz : ℤ) (new_tnum new_mnum : String) : List Event :=
  [Event.publishDesired topic
    ⟨new_alarm, new_units, new_alt, new_tz, new_tnum, new_mnum⟩]

/-- report_shadow_state of the source: publish the current configuration
as a reported-state document. -/
def report_shadow_state (topic : String) (st : Station) : List Event :=
  [Event.publishReported topic
    ⟨st.next_alarm.timestamp, st.unit_type, st.location_altitude,
     st.time_zone_offset, st.twilio_device_number, st.master_number⟩]

/-- The firing transition _handle_alarm of the source: push a desired
alarm one day out, set rang to true, then send the weather report for
the current observation from the device number to the master number. -/
def _handle_alarm (st : Station) : Station × List Event :=
  let evs := update_shadow_state st.shadow_topic (st.next_alarm.timestamp + 86400)
    st.unit_type st.location_altitude st.time_zone_offset
    st.twilio_device_number st.master_number
  let st1 : Station :=
    { st with next_alarm := { timestamp := st.next_alarm.timestamp, rang := true } }
  let weather_string := get_weather_report "Daily Report!\n" st1
  (st1, evs ++ [Event.sendMessage st1.twilio_topic st1.master_number
    st1.twilio_device_number weather_string ""])

/-- The success guard of make_observation, line for line from the source:
C truthiness of the BMP event pressure, and neither DHT reading NaN. -/
def sensors_ok (r : SensorReadings) : Bool :=
  r.event_pressure.truthy && !(r.dht_humidity.isnan || r.dht_temperature.isnan)

/-- make_observation of the source: on a successful read, overwrite the
observation with averaged temperature and fresh time fields, then fire
the alarm if it is un-rung and the new epoch lies in the detection
window; on a sensor fault, change nothing. -/
def make_observation (r : SensorReadings) (t : TimeReading) (st : Station) :
    Station × List Event :=
  if sensors_ok r then
    let avg_temperature := (r.dht_temperature.add r.bmp_temperature).divC 2
    let obs : WObservation :=
      { temperature := avg_temperature, humidity := r.dht_humidity,
        pressure := r.event_pressure, day := t.day, hour := t.hour,
        minute := t.minute, second := t.second, epoch := t.epoch }
    let st1 : Station := { st with last_observation := obs }
    if st1.next_alarm.rang = false then
      if obs.epoch > st1.next_alarm.timestamp ∧
         st1.next_alarm.timestamp + RECHECK_WEATHER_INTERVAL / 1000 * 2 > obs.epoch then
        _handle_alarm st1
      else (st1, [])
    else (st1, [])
  else (st, [])

/-- update_alarm of the source: a no-op when the new timestamp equals the
current one; otherwise rang is set according to whether the new
timestamp is past (relative to the last observation) or zero, and the
timestamp is replaced.  No publish or send occurs. -/
def update_alarm (alarm_in : ℤ) (st : Station) : Station × List Event :=
  if st.next_alarm.timestamp = alarm_in then (st, [])
  else
    let rang := if st.last_observation.epoch > alarm_in ∨ alarm_in = 0 then true else false
    ({ st with next_alarm := { timestamp := alarm_in, rang := rang } }, [])

/-- update_units of the source: accept exactly the strings for imperial
and metric, ignore anything else.  The C++ return type is void; the
second component of the result is that void return value. -/
def update_units (units_in : String) (st : Station) : Station × Unit :=
  if units_in = "imperial" ∨ units_in = "metric" then
    ({ st with unit_type := units_in }, ())
  else (st, ())

/-- update_alt of the source. -/
def update_alt (alt_in : ℤ) (st : Station) : Station :=
  { st with location_altitude := alt_in }

/-- update_tz of the source; the time-source resynchronisation is an
external effect of the time capability. -/
def update_tz (tz_in : ℤ) (st : Station) : Station :=
  { st with time_zone_offset := tz_in }

/-- update_tnum of the source. -/
def update_tnum (tnum_in : String) (st : Station) : Station :=
  { st with twilio_device_number := tnum_in }

/-- update_mnum of the source. -/
def update_mnum (mnum_in : String) (st : Station) : Station :=
  { st with master_number := mnum_in }

/-- Configuration arguments of the constructor that the engine state
retains. -/
structure StationConfig where
  time_zone_offset : ℤ
  altitude : ℤ
  master_number : String
  twilio_device_number : String
  unit_type : String
  twilio_topic : String
  shadow_topic : String
deriving DecidableEq, Repr

/-- The engine state as the constructor builds it just before its
bootstrap call to update_alarm: zeroed observation, alarm timestamp 0,
rang true. -/
def init_station (cfg : StationConfig) : Station :=
  { last_observation :=
      { temperature := ⟨false, 0⟩, humidity := ⟨false, 0⟩, pressure := ⟨false, 0⟩,
        day := 0, hour := 0, minute := 0, second := 0, epoch := 0 },
    next_alarm := { timestamp := 0, rang := true },
    location_altitude := cfg.altitude,
    time_zone_offset := cfg.time_zone_offset,
    master_number := cfg.master_number,
    twilio_device_number := cfg.twilio_device_number,
    unit_type := cfg.unit_type,
    shadow_topic := cfg.shadow_topic,
    twilio_topic := cfg.twilio_topic }

/-- One state-mutating operation of the engine: the bootstrap and shadow
delta setters, and one sampler tick with arbitrary sensor and time
readings. -/
inductive Step : Station → Station → Prop where
  | alarm (a : ℤ) (st : Station) : Step st (update_alarm a st).1
  | observe (r : SensorReadings) (t : TimeReading) (st : Station) :
      Step st (make_observation r t st).1
  | units (s : String) (st : Station) : Step st (update_units s st).1
  | alt (a : ℤ) (st : Station) : Step st (update_alt a st)
  | tz (z : ℤ) (st : Station) : Step st (update_tz z st)
  | tnum (s : String) (st : Station) : Step st (update_tnum s st)
  | mnum (s : String) (st : Station) : Step st (update_mnum s st)

/-- A state is reachable when some sequence of operations produces it
from the constructor state of some configuration. -/
def Reachable (st : Station) : Prop :=
  ∃ cfg : StationConfig, Relation.ReflTransGen Step (init_station cfg) st

/-! ## Concrete inputs used by witnesses and counterexamples -/

/-- A concrete constructor configuration. -/
def exCfg : StationConfig :=
  { time_zone_offset := 0, altitude := 100, master_number := "+15550001111",
    twilio_device_number := "+15550002222", unit_type := "metric",
    twilio_topic := "tw_topic", shadow_topic := "sh_topic" }

/-- The constructor state for exCfg. -/
def exStation : Station := init_station exCfg

/-- A state with an armed alarm at epoch 1000. -/
def exArmed : Station :=
  { exStation with next_alarm := { timestamp := 1000, rang := false } }

/-- A state whose last observation has epoch 500. -/
def exEpoch500 : Station :=
  { exStation with last_observation := { exStation.last_observation with epoch := 500 } }

/-- A fully valid sensor acquisition. -/
def exSensors : SensorReadings :=
  { event_pressure := ⟨false, 1000⟩, dht_humidity := ⟨false, 50⟩,
    dht_temperature := ⟨false, 20⟩, bmp_temperature := ⟨false, 22⟩ }

/-- A sensor acquisition whose pressure reading is NaN. -/
def exSensorsNanPressure : SensorReadings :=
  { exSensors with event_pressure := ⟨true, 0⟩ }

/-- A sensor acquisition whose pressure reading is zero, the failure
sentinel of the BMP driver. -/
def exSensorsZeroPressure : SensorReadings :=
  { exSensors with event_pressure := ⟨false, 0⟩ }

/-- A time reading at a given epoch. -/
def exTimeAt (e : ℤ) : TimeReading :=
  { day := 2, hour := 10, minute := 30, second := 5, epoch := e }

/-- A state with imperial units selected. -/
def exImperial : Station := { exStation with unit_type := "imperial" }

/-- A state whose observation has distinct humidity and temperature values,
at a nonzero altitude, so that the two candidate celsius arguments of the
sea-level conversion give different results. -/
def exC10 : Station :=
  { exStation with
    last_observation :=
      { exStation.last_observation with
        humidity := ⟨false, 50⟩
        temperature := ⟨false, 20⟩
        pressure := ⟨false, 1000⟩ } }

/-- Counts the outbound message sends in an event trace. -/
def countSends (evs : List Event) : ℕ :=
  (evs.filter fun e => match e with
    | Event.sendMessage _ _ _ _ _ => true
    | _ => false).length

/-- Invariant of the alarm state machine: a disabled alarm (timestamp 0)
always has rang set. -/
def AlarmInv (st : Station) : Prop :=
  st.next_alarm.timestamp = 0 → st.next_alarm.rang = true

/-! ## Helper lemmas -/

/-- Truncation to 159 characters bounds the length by 160. -/
theorem truncate159_length_le (s : String) : (truncate159 s).length ≤ 160 := by
  unfold truncate159
  have h : (s.data.take 159).length ≤ 159 := List.length_take_le 159 s.data
  calc (String.mk (s.data.take 159)).length = (s.data.take 159).length := rfl
    _ ≤ 159 := h
    _ ≤ 160 := by norm_num

/-- update_units never touches the alarm. -/
theorem update_units_preserves_alarm (s : String) (st : Station) :
    (update_units s st).1.next_alarm = st.next_alarm := by
  unfold update_units
  split <;> rfl

/-- The constructor state satisfies the alarm invariant. -/
theorem alarmInv_init (cfg : StationConfig) : AlarmInv (init_station cfg) :=
  fun _ => rfl

/-- update_alarm preserves the alarm invariant. -/
theorem alarmInv_update_alarm (a : ℤ) (st : Station) (h : AlarmInv st) :
    AlarmInv (update_alarm a st).1 := by
  unfold AlarmInv update_alarm at *
  by_cases hc : st.next_alarm.timestamp = a
  · simpa [hc] using h
  · simp [hc]
    intro ha
    simp [ha]

/-- A sampler tick preserves the alarm invariant: it either leaves the
alarm alone or sets rang to true with the timestamp unchanged. -/
theorem alarmInv_make_observation (r : SensorReadings) (t : TimeReading) (st : Station)
    (h : AlarmInv st) : AlarmInv (make_observation r t st).1 := by
  unfold make_observation
  by_cases hs : sensors_ok r = true
  · simp only [hs, if_true]
    split_ifs with h1 h2
    · simp [AlarmInv, _handle_alarm]
    · simpa [AlarmInv] using h
    · simpa [AlarmInv] using h
  · simp only [hs, if_false]
    exact h

/-- Every engine operation preserves the alarm invariant. -/
theorem alarmInv_step {a b : Station} (hs : Step a b) (h : AlarmInv a) : AlarmInv b := by
  cases hs with
  | alarm x => exact alarmInv_update_alarm x a h
  | observe r t => exact alarmInv_make_observation r t a h
  | units s =>
      unfold AlarmInv at *
      rw [update_units_preserves_alarm s a]
      exact h
  | alt x => exact h
  | tz z => exact h
  | tnum s => exact h
  | mnum s => exact h

/-- Every reachable state satisfies the alarm invariant. -/
theorem reachable_alarmInv {st : Station} (h : Reachable st) : AlarmInv st := by
  obtain ⟨cfg, hsteps⟩ := h
  induction hsteps with
  | refl => exact alarmInv_init cfg
  | tail _ hbc ih => exact alarmInv_step hbc ih

/-! ## Claim theorems -/

/-- Claim C1, counterexample to the stated window: with an un-rung alarm at
timestamp 1000 and a successful sample at epoch 1360, which satisfies
T < E ≤ T + 2·sample_interval with equality at the upper end, the claim
requires a fire, but the source comparison is strict and no fire occurs:
the tick emits no event and rang stays false. -/
theorem make_observation_window_boundary_no_fire :
    exArmed.next_alarm.rang = false ∧
    sensors_ok exSensors = true ∧
    exArmed.next_alarm.timestamp < (exTimeAt 1360).epoch ∧
    (exTimeAt 1360).epoch ≤
      exArmed.next_alarm.timestamp + 2 * (RECHECK_WEATHER_INTERVAL / 1000) ∧
    (make_observation exSensors (exTimeAt 1360) exArmed).2 = [] ∧
    (make_observation exSensors (exTimeAt 1360) exArmed).1.next_alarm.rang = false := by
  decide

/-- Claim C1, amended: for an un-rung alarm at timestamp T, a successful
sample whose epoch E satisfies T < E < T + 2·sample_interval (strict upper
bound, as in the source) invokes the firing transition and moves rang from
false to true with exactly one outbound send, retaining the timestamp; and
any sample taken while rang is already true fires nothing, so no later
sample fires again for the same timestamp. -/
theorem make_observation_fires_once_in_strict_window :
    ∀ (r : SensorReadings) (t : TimeReading) (st : Station),
      sensors_ok r = true →
      st.next_alarm.rang = false →
      st.next_alarm.timestamp < t.epoch →
      t.epoch < st.next_alarm.timestamp + 2 * (RECHECK_WEATHER_INTERVAL / 1000) →
      ((make_observation r t st).1.next_alarm.rang = true ∧
       (make_observation r t st).1.next_alarm.timestamp = st.next_alarm.timestamp ∧
       countSends (make_observation r t st).2 = 1) ∧
      (∀ (r2 : SensorReadings) (t2 : TimeReading) (st2 : Station),
        st2.next_alarm.rang = true →
        (make_observation r2 t2 st2).1.next_alarm.rang = true ∧
        (make_observation r2 t2 st2).2 = []) := by
  intro r t st hs hr h1 h2
  have h2c : st.next_alarm.timestamp + RECHECK_WEATHER_INTERVAL / 1000 * 2 > t.epoch := by
    norm_num [RECHECK_WEATHER_INTERVAL] at h2 ⊢
    linarith
  refine ⟨?_, ?_⟩
  · simp [make_observation, hs, hr, h1, h2c, _handle_alarm, update_shadow_state, countSends,
      gt_iff_lt]
  · intro r2 t2 st2 hrang
    by_cases hs2 : sensors_ok r2 = true
    · simp [make_observation, hs2, hrang]
    · simp [make_observation, hs2]
      exact hrang

/-- Witness for C1: a successful sample at epoch 1359, strictly inside the
window of the alarm at 1000, fires exactly once. -/
theorem make_observation_fires_once_in_strict_window_witness :
    (sensors_ok exSensors = true ∧ exArmed.next_alarm.rang = false ∧
     exArmed.next_alarm.timestamp < (exTimeAt 1359).epoch ∧
     (exTimeAt 1359).epoch <
       exArmed.next_alarm.timestamp + 2 * (RECHECK_WEATHER_INTERVAL / 1000)) ∧
    (((make_observation exSensors (exTimeAt 1359) exArmed).1.next_alarm.rang = true ∧
      (make_observation exSensors (exTimeAt 1359) exArmed).1.next_alarm.timestamp =
        exArmed.next_alarm.timestamp ∧
      countSends (make_observation exSensors (exTimeAt 1359) exArmed).2 = 1) ∧
     (∀ (r2 : SensorReadings) (t2 : TimeReading) (st2 : Station),
       st2.next_alarm.rang = true →
       (make_observation r2 t2 st2).1.next_alarm.rang = true ∧
       (make_observation r2 t2 st2).2 = [])) :=
  ⟨⟨by decide, by decide, by decide, by decide⟩,
   make_observation_fires_once_in_strict_window exSensors (exTimeAt 1359) exArmed
     (by decide) (by decide) (by decide) (by decide)⟩

/-- Claim C2, counterexample at the boundary: with the last observation at
epoch 500, update_alarm(500) satisfies the stated premise T ≤ epoch with
T nonzero and different from the current timestamp, yet the source
comparison is strict, so the result is Armed (rang false), not Rung. -/
theorem update_alarm_at_epoch_arms :
    (500 : ℤ) ≠ 0 ∧ exEpoch500.next_alarm.timestamp ≠ 500 ∧
    (500 : ℤ) ≤ exEpoch500.last_observation.epoch ∧
    (update_alarm 500 exEpoch500).1.next_alarm.rang = false ∧
    (update_alarm 500 exEpoch500).1.next_alarm.timestamp = 500 := by
  decide

/-- Claim C2, amended: for T nonzero, different from the current alarm
timestamp and strictly before the latest observation epoch, update_alarm(T)
yields rang true with timestamp T - the Rung state, not Armed - and emits
no event; at T equal to the epoch the alarm is armed instead. -/
theorem update_alarm_past_timestamp_rungs :
    ∀ (T : ℤ) (st : Station), T ≠ 0 → st.next_alarm.timestamp ≠ T →
      T < st.last_observation.epoch →
      (update_alarm T st).1.next_alarm.rang = true ∧
      (update_alarm T st).1.next_alarm.timestamp = T ∧
      (update_alarm T st).2 = [] := by
  intro T st h0 hne hlt
  simp [update_alarm, hne, hlt, gt_iff_lt]

/-- Witness for C2: update_alarm(400) with the last observation at epoch
500 lands in Rung. -/
theorem update_alarm_past_timestamp_rungs_witness :
    ((400 : ℤ) ≠ 0 ∧ exEpoch500.next_alarm.timestamp ≠ 400 ∧
     (400 : ℤ) < exEpoch500.last_observation.epoch) ∧
    ((update_alarm 400 exEpoch500).1.next_alarm.rang = true ∧
     (update_alarm 400 exEpoch500).1.next_alarm.timestamp = 400 ∧
     (update_alarm 400 exEpoch500).2 = []) :=
  ⟨⟨by decide, by decide, by decide⟩,
   update_alarm_past_timestamp_rungs 400 exEpoch500 (by decide) (by decide) (by decide)⟩

/-- Claim C3, counterexample: a NaN pressure reading is truthy under the C
conversion the guard uses, so the sample is not treated as a fault - the
observation is overwritten (its epoch becomes 777, the prior epoch was 0),
contradicting the claim that a non-finite pressure reading yields
SensorFault. -/
theorem make_observation_nan_pressure_not_fault :
    FloatR.isnan exSensorsNanPressure.event_pressure = true ∧
    sensors_ok exSensorsNanPressure = true ∧
    (make_observation exSensorsNanPressure (exTimeAt 777) exStation).1.last_observation.epoch
      = 777 ∧
    exStation.last_observation.epoch = 0 ∧
    (make_observation exSensorsNanPressure (exTimeAt 777) exStation).2 = [] := by
  decide

/-- Claim C3, amended: the fault branch is taken if and only if the BMP
event pressure is a non-NaN zero (the C falsy case) or either DHT reading
is NaN; a NaN pressure is not detected.  On the fault branch the state is
returned untouched with no events. -/
theorem make_observation_fault_condition :
    ∀ (r : SensorReadings) (t : TimeReading) (st : Station),
      ((sensors_ok r = false) ↔
        ((r.event_pressure.isNaN = false ∧ r.event_pressure.val = 0) ∨
         r.dht_humidity.isNaN = true ∨ r.dht_temperature.isNaN = true)) ∧
      (sensors_ok r = false → make_observation r t st = (st, [])) := by
  intro r t st
  constructor
  · cases hp : r.event_pressure.isNaN <;> cases hh : r.dht_humidity.isNaN <;>
      cases ht : r.dht_temperature.isNaN <;>
      simp [sensors_ok, FloatR.truthy, FloatR.isnan, hp, hh, ht]
  · intro h
    simp [make_observation, h]

/-- Witness for C3: a zero pressure reading trips the fault branch and the
tick returns the state unchanged. -/
theorem make_observation_fault_condition_witness :
    ((sensors_ok exSensorsZeroPressure = false) ↔
      ((exSensorsZeroPressure.event_pressure.isNaN = false ∧
        exSensorsZeroPressure.event_pressure.val = 0) ∨
       exSensorsZeroPressure.dht_humidity.isNaN = true ∨
       exSensorsZeroPressure.dht_temperature.isNaN = true)) ∧
    (sensors_ok exSensorsZeroPressure = false →
      make_observation exSensorsZeroPressure (exTimeAt 777) exStation = (exStation, [])) :=
  make_observation_fault_condition exSensorsZeroPressure (exTimeAt 777) exStation

/-- Claim C4: when a sample tick takes the sensor-fault branch, every field
of the stored observation is identical to its pre-call value, the alarm is
unchanged, and no event is emitted. -/
theorem make_observation_fault_preserves_state :
    ∀ (r : SensorReadings) (t : TimeReading) (st : Station),
      sensors_ok r = false →
      (make_observation r t st).1.last_observation.temperature =
        st.last_observation.temperature ∧
      (make_observation r t st).1.last_observation.humidity =
        st.last_observation.humidity ∧
      (make_observation r t st).1.last_observation.pressure =
        st.last_observation.pressure ∧
      (make_observation r t st).1.last_observation.day = st.last_observation.day ∧
      (make_observation r t st).1.last_observation.hour = st.last_observation.hour ∧
      (make_observation r t st).1.last_observation.minute = st.last_observation.minute ∧
      (make_observation r t st).1.last_observation.second = st.last_observation.second ∧
      (make_observation r t st).1.last_observation.epoch = st.last_observation.epoch ∧
      (make_observation r t st).1.next_alarm = st.next_alarm ∧
      (make_observation r t st).2 = [] := by
  intro r t st h
  simp [make_observation, h]

/-- Witness for C4 at a zero pressure reading against an armed state. -/
theorem make_observation_fault_preserves_state_witness :
    sensors_ok exSensorsZeroPressure = false ∧
    ((make_observation exSensorsZeroPressure (exTimeAt 777) exArmed).1.last_observation.temperature =
        exArmed.last_observation.temperature ∧
      (make_observation exSensorsZeroPressure (exTimeAt 777) exArmed).1.last_observation.humidity =
        exArmed.last_observation.humidity ∧
      (make_observation exSensorsZeroPressure (exTimeAt 777) exArmed).1.last_observation.pressure =
        exArmed.last_observation.pressure ∧
      (make_observation exSensorsZeroPressure (exTimeAt 777) exArmed).1.last_observation.day =
        exArmed.last_observation.day ∧
      (make_observation exSensorsZeroPressure (exTimeAt 777) exArmed).1.last_observation.hour =
        exArmed.last_observation.hour ∧
      (make_observation exSensorsZeroPressure (exTimeAt 777) exArmed).1.last_observation.minute =
        exArmed.last_observation.minute ∧
      (make_observation exSensorsZeroPressure (exTimeAt 777) exArmed).1.last_observation.second =
        exArmed.last_observation.second ∧
      (make_observation exSensorsZeroPressure (exTimeAt 777) exArmed).1.last_observation.epoch =
        exArmed.last_observation.epoch ∧
      (make_observation exSensorsZeroPressure (exTimeAt 777) exArmed).1.next_alarm =
        exArmed.next_alarm ∧
      (make_observation exSensorsZeroPressure (exTimeAt 777) exArmed).2 = []) :=
  ⟨by decide,
   make_observation_fault_preserves_state exSensorsZeroPressure (exTimeAt 777) exArmed
     (by decide)⟩

/-- Claim C5: from every reachable state, update_alarm(0) results in the
Disabled state: timestamp 0 and rang true.  Reachability supplies the
invariant needed for the no-op case where the timestamp is already 0. -/
theorem update_alarm_zero_disables :
    ∀ st : Station, Reachable st →
      (update_alarm 0 st).1.next_alarm.timestamp = 0 ∧
      (update_alarm 0 st).1.next_alarm.rang = true := by
  intro st hr
  have hinv := reachable_alarmInv hr
  by_cases h : st.next_alarm.timestamp = 0
  · constructor
    · simp [update_alarm, h]
    · simp [update_alarm, h]
      exact hinv h
  · simp [update_alarm, h]

/-- Witness for C5 at the constructor state, reachable by the empty
sequence of operations. -/
theorem update_alarm_zero_disables_witness :
    Reachable exStation ∧
    ((update_alarm 0 exStation).1.next_alarm.timestamp = 0 ∧
     (update_alarm 0 exStation).1.next_alarm.rang = true) :=
  ⟨⟨exCfg, Relation.ReflTransGen.refl⟩,
   update_alarm_zero_disables exStation ⟨exCfg, Relation.ReflTransGen.refl⟩⟩

/-- Claim C6: update_alarm is idempotent - the second of two successive
calls with the same timestamp changes nothing and emits nothing - and is a
no-op whenever its argument equals the current alarm timestamp. -/
theorem update_alarm_idempotent :
    ∀ (a : ℤ) (st : Station),
      update_alarm a (update_alarm a st).1 = ((update_alarm a st).1, []) ∧
      (st.next_alarm.timestamp = a → update_alarm a st = (st, [])) := by
  intro a st
  constructor
  · by_cases h : st.next_alarm.timestamp = a <;> simp [update_alarm, h]
  · intro h
    simp [update_alarm, h]

/-- Witness for C6 at timestamp 0 on the constructor state, where the
no-op clause is exercised with a true premise. -/
theorem update_alarm_idempotent_witness :
    update_alarm 0 (update_alarm 0 exStation).1 = ((update_alarm 0 exStation).1, []) ∧
    (exStation.next_alarm.timestamp = 0 → update_alarm 0 exStation = (exStation, [])) :=
  update_alarm_idempotent 0 exStation

/-- Claim C7: the firing transition run from an Armed state with timestamp
T sets rang to true, retains the local timestamp T, publishes one desired
document whose alarm field is T + 86400, and sends exactly one outbound
message whose body is the weather report composed from the current
observation. -/
theorem handle_alarm_fires_from_armed :
    ∀ st : Station, st.next_alarm.rang = false → 0 < st.next_alarm.timestamp →
      (_handle_alarm st).1.next_alarm.rang = true ∧
      (_handle_alarm st).1.next_alarm.timestamp = st.next_alarm.timestamp ∧
      (_handle_alarm st).1.last_observation = st.last_observation ∧
      countSends (_handle_alarm st).2 = 1 ∧
      (_handle_alarm st).2 =
        [Event.publishDesired st.shadow_topic
          { alarm := st.next_alarm.timestamp + 86400, units := st.unit_type,
            alt := st.location_altitude, tz := st.time_zone_offset,
            t_num := st.twilio_device_number, m_num := st.master_number },
         Event.sendMessage st.twilio_topic st.master_number st.twilio_device_number
           (get_weather_report "Daily Report!\n" (_handle_alarm st).1) ""] := by
  intro st h1 h2
  simp [_handle_alarm, update_shadow_state, countSends]

/-- Witness for C7 at the armed example state. -/
theorem handle_alarm_fires_from_armed_witness :
    (exArmed.next_alarm.rang = false ∧ 0 < exArmed.next_alarm.timestamp) ∧
    ((_handle_alarm exArmed).1.next_alarm.rang = true ∧
     (_handle_alarm exArmed).1.next_alarm.timestamp = exArmed.next_alarm.timestamp ∧
     (_handle_alarm exArmed).1.last_observation = exArmed.last_observation ∧
     countSends (_handle_alarm exArmed).2 = 1 ∧
     (_handle_alarm exArmed).2 =
       [Event.publishDesired exArmed.shadow_topic
         { alarm := exArmed.next_alarm.timestamp + 86400, units := exArmed.unit_type,
           alt := exArmed.location_altitude, tz := exArmed.time_zone_offset,
           t_num := exArmed.twilio_device_number, m_num := exArmed.master_number },
        Event.sendMessage exArmed.twilio_topic exArmed.master_number
          exArmed.twilio_device_number
          (get_weather_report "Daily Report!\n" (_handle_alarm exArmed).1) ""]) :=
  ⟨⟨by decide, by decide⟩,
   handle_alarm_fires_from_armed exArmed (by decide) (by decide)⟩

/-- Claim C8: the report string produced by the composer is at most 160
characters long for every intro string and every state, by the snprintf
bound of 160 bytes including the terminating NUL. -/
theorem get_weather_report_length_le_160 :
    ∀ (s : String) (st : Station), (get_weather_report s st).length ≤ 160 := by
  intro s st
  exact truncate159_length_le _

/-- Claim C9, counterexample to the return-status clause: the C++ setter
returns void, modelled as Unit, so a rejected call and an accepted call
return identical values even though only the accepted one changes the unit
system - the return value cannot report rejection. -/
theorem update_units_void_return_no_status :
    (update_units "bogus" exImperial).2 = (update_units "metric" exImperial).2 ∧
    (update_units "bogus" exImperial).1.unit_type ≠
      (update_units "metric" exImperial).1.unit_type := by
  decide

/-- Claim C9, amended: an argument other than the two recognized strings
leaves the whole state unchanged, a recognized one replaces exactly the
unit-system field, and the setter returns no status either way - feedback
exists only as a diagnostic print outside the model. -/
theorem update_units_validates_and_applies :
    ∀ (s : String) (st : Station),
      (¬(s = "imperial" ∨ s = "metric") → (update_units s st).1 = st) ∧
      ((s = "imperial" ∨ s = "metric") → (update_units s st).1.unit_type = s) ∧
      (update_units s st).1.last_observation = st.last_observation ∧
      (update_units s st).1.next_alarm = st.next_alarm ∧
      (update_units s st).2 = () := by
  intro s st
  by_cases h : s = "imperial" ∨ s = "metric"
  · rcases h with h | h <;> simp [update_units, h]
  · simp [update_units, h]

/-- Witness for C9 at the rejected input. -/
theorem update_units_validates_and_applies_witness :
    (¬(("bogus" : String) = "imperial" ∨ ("bogus" : String) = "metric") →
      (update_units "bogus" exImperial).1 = exImperial) ∧
    ((("bogus" : String) = "imperial" ∨ ("bogus" : String) = "metric") →
      (update_units "bogus" exImperial).1.unit_type = "bogus") ∧
    (update_units "bogus" exImperial).1.last_observation = exImperial.last_observation ∧
    (update_units "bogus" exImperial).1.next_alarm = exImperial.next_alarm ∧
    (update_units "bogus" exImperial).2 = () :=
  update_units_validates_and_applies "bogus" exImperial

/-- Claim C10: the sea-level pressure shown in the weather report passes
the last observation humidity - not its temperature - as the celsius
argument of the station-to-sea-level conversion; at a concrete state with
distinct humidity and temperature the two choices give different values. -/
theorem report_sea_level_pressure_uses_humidity :
    (∀ st : Station, report_sea_level_pressure st =
      _hpa_to_sea_level st st.last_observation.humidity st.last_observation.pressure
        st.location_altitude) ∧
    report_sea_level_pressure exC10 ≠
      _hpa_to_sea_level exC10 exC10.last_observation.temperature
        exC10.last_observation.pressure exC10.location_altitude := by
  refine ⟨fun st => rfl, ?_⟩
  simp only [report_sea_level_pressure, _hpa_to_sea_level, exC10, exStation, init_station,
    exCfg, ne_eq, FloatR.mk.injEq, not_and]
  intro _
  rw [croundQ, croundQ,
    if_pos (by norm_num [expQ, ATM_JOULES_PER_KILOGRAM_KELVIN, GRAVITATIONAL_ACCELERATION]),
    if_pos (by norm_num [expQ, ATM_JOULES_PER_KILOGRAM_KELVIN, GRAVITATIONAL_ACCELERATION])]
  norm_num [expQ, ATM_JOULES_PER_KILOGRAM_KELVIN, GRAVITATIONAL_ACCELERATION]
